import Mathlib

/-!
SkillTracker: the data-access layer of `nodeJS/database.mjs`.

A shallow embedding of the three exported operations of the SkillTracker
database module (`checkTableAndCreate`, `insertDataIntoDatabase`,
`readFromDatabase`) and of the values they exchange with the MySQL driver.

Modelling choices.

* JavaScript values are the type `JsVal`; numbers are restricted to integers.
* `con.query(sql, values, callback)` is a call of `Connection.query`: the
  driver answers every query, either with an error object or with a result,
  and may change the state of the server. An operation returns a `Run`: how
  the call ended (`Outcome`), the state of the server afterwards and the
  queries it issued on the connection, in order.
* A promise that is settled from the callback of a query is modelled by its
  final state, so `Outcome.rejected` and `Outcome.resolved` stand for a
  promise that was returned to the caller, and `Outcome.threw` for an
  exception raised before any promise was returned.
* `mysql.escapeId` belongs to the driver library; every operation takes it as
  the argument `escapeId`, and `mysqlEscapeId` is the library function itself.
* Calls of the logger do not influence control flow and are left out, except
  that the evaluation of the arguments of the logger call of
  `readFromDatabase` is kept, because it can raise.
-/

namespace SkillTracker

/-! ## Values -/

/-- A JavaScript value as far as the module handles one. -/
inductive JsVal where
  | undefined
  | null
  | bool (b : Bool)
  | num (n : Int)
  | str (s : String)
  | arr (xs : List JsVal)

/-- The test `Array.isArray(v)`. -/
def isArray : JsVal → Bool
  | .arr _ => true
  | _ => false

/-- The elements of an array value (no elements for any other value). -/
def elements : JsVal → List JsVal
  | .arr xs => xs
  | _ => []

/-- Reading a property such as `v.length` raises a TypeError exactly when `v`
is `undefined` or `null`; on every other value it yields a value. -/
def readsProperty : JsVal → Bool
  | .undefined => false
  | .null => false
  | _ => true

/-- The method `Array.prototype.join` on an array of strings. -/
def join (sep : String) : List String → String
  | [] => ""
  | [x] => x
  | x :: y :: rest => x ++ sep ++ join sep (y :: rest)

/-! ## The driver -/

/-- The error object the driver hands to a callback; `errno` is the MySQL
error number. -/
structure DriverError where
  errno : Int
  message : String

/-- What a call can fail with. -/
inductive JsError where
  /-- The value `new Error(message)` created by the module. -/
  | error (message : String)
  /-- A TypeError raised by the JavaScript engine. -/
  | typeError
  /-- The error object received from the driver, passed on unchanged. -/
  | driver (e : DriverError)

/-- A row of a result set: column names with their values. -/
abbrev Row := List (String × JsVal)

/-- The result the driver hands to a callback: the rows of a SELECT, or the
result header of any other statement. -/
inductive DriverResult where
  | rows (rs : List Row)
  | header (affectedRows insertId : Nat)

/-- The arguments `(err, result)` of the callback of a query. -/
inductive Reply where
  | err (e : DriverError)
  | ok (result : DriverResult)

/-- A call `con.query(sql, values, callback)`; `values` is `none` for the
two-argument form `con.query(sql, callback)`. -/
structure Query where
  sql : String
  values : Option (List JsVal)

/-- A connection to a server with states `σ`: the reply to a query and the
state of the server after it. -/
structure Connection (σ : Type) where
  query : σ → Query → Reply × σ

/-- How a call of an operation ends. -/
inductive Outcome (α : Type) where
  /-- The call raised an exception synchronously; no promise was returned. -/
  | threw (e : JsError)
  /-- The call returned a promise, and the promise was rejected with `e`. -/
  | rejected (e : JsError)
  /-- The call returned a promise, and the promise was fulfilled with `v`. -/
  | resolved (v : α)

/-- The record of one call: its outcome, the state of the server after it and
the queries issued on the connection, oldest first. -/
structure Run (σ α : Type) where
  outcome : Outcome α
  state : σ
  issued : List Query

/-- The test `result.length > 0`: a result header has no `length`, and
`undefined > 0` is false. -/
def lengthPositive : DriverResult → Bool
  | .rows rs => decide (0 < rs.length)
  | .header _ _ => false

/-! ## `checkTableAndCreate` (lines 73-96) -/

/-- The existence query of line 75 with its two bound values. -/
def tableCheckQuery (databaseName tableName : JsVal) : Query :=
  ⟨"SELECT TABLE_NAME FROM INFORMATION_SCHEMA.TABLES WHERE TABLE_SCHEMA = ? AND TABLE_NAME = ?",
    some [databaseName, tableName]⟩

/-- The creation statement of line 85; it is issued without bound values. -/
def tableCreateQuery (escapeId : JsVal → String) (tableName : JsVal) (tableDetails : String) :
    Query :=
  ⟨"CREATE TABLE " ++ escapeId tableName ++ " (" ++ tableDetails ++ ")", none⟩

/-- The operation `checkTableAndCreate(con, databaseName, tableName, tableDetails)`. -/
def checkTableAndCreate {σ : Type} (escapeId : JsVal → String) (con : Connection σ) (s : σ)
    (databaseName tableName : JsVal) (tableDetails : String) : Run σ Unit :=
  match con.query s (tableCheckQuery databaseName tableName) with
  | (.err e, s1) => ⟨.rejected (.driver e), s1, [tableCheckQuery databaseName tableName]⟩
  | (.ok result, s1) =>
    if lengthPositive result then
      ⟨.resolved (), s1, [tableCheckQuery databaseName tableName]⟩
    else
      match con.query s1 (tableCreateQuery escapeId tableName tableDetails) with
      | (.err e, s2) =>
        ⟨.rejected (.driver e), s2,
          [tableCheckQuery databaseName tableName,
            tableCreateQuery escapeId tableName tableDetails]⟩
      | (.ok _, s2) =>
        ⟨.resolved (), s2,
          [tableCheckQuery databaseName tableName,
            tableCreateQuery escapeId tableName tableDetails]⟩

/-! ## `insertDataIntoDatabase` (lines 98-121) -/

/-- The object an insertion resolves with: the field `status`, and the field
`result` when it is present. -/
structure InsertResult where
  status : String
  result : Option DriverResult

/-- The statement text of lines 102-104. -/
def insertStatement (escapeId : JsVal → String) (tableName : JsVal)
    (dataSet userData : List JsVal) : String :=
  let placeHolders := join ", " (userData.map fun _ => "?")
  let columnNames := join ", " (dataSet.map fun col => escapeId col)
  "INSERT INTO " ++ escapeId tableName ++ " (" ++ columnNames ++ ") VALUES(" ++ placeHolders ++ ")"

/-- The operation `insertDataIntoDatabase(con, tableName, dataSet, userData)`
on two arrays. -/
def insertDataIntoDatabase {σ : Type} (escapeId : JsVal → String) (con : Connection σ) (s : σ)
    (tableName : JsVal) (dataSet userData : List JsVal) : Run σ InsertResult :=
  if dataSet.length ≠ userData.length then
    ⟨.rejected (.error "Columns count doesn't match values count"), s, []⟩
  else
    match con.query s ⟨insertStatement escapeId tableName dataSet userData, some userData⟩ with
    | (.err e, s1) =>
      if e.errno = 1062 then
        ⟨.resolved ⟨"DUPLICATE", none⟩, s1,
          [⟨insertStatement escapeId tableName dataSet userData, some userData⟩]⟩
      else
        ⟨.rejected (.driver e), s1,
          [⟨insertStatement escapeId tableName dataSet userData, some userData⟩]⟩
    | (.ok result, s1) =>
      ⟨.resolved ⟨"SUCCESS", some result⟩, s1,
        [⟨insertStatement escapeId tableName dataSet userData, some userData⟩]⟩

/-! ## `readFromDatabase` (lines 123-148) -/

/-- The column list of line 138: the escaped elements joined by a comma and a
blank when `dataSet` is an array, the escaped `dataSet` otherwise. -/
def selectColumns (escapeId : JsVal → String) (dataSet : JsVal) : String :=
  if isArray dataSet then join ", " ((elements dataSet).map fun col => escapeId col)
  else escapeId dataSet

/-- The statement text of line 138 for the condition text `parameters`. -/
def selectStatement (escapeId : JsVal → String) (tableName dataSet : JsVal)
    (parameters : String) : String :=
  "SELECT " ++ selectColumns escapeId dataSet ++ " From " ++ escapeId tableName ++ " where "
    ++ parameters ++ ";"

/-- The promise of lines 139-147: one query, settled from its callback. -/
def runSelect {σ : Type} (con : Connection σ) (s : σ) (statement : String)
    (values : List JsVal) : Run σ DriverResult :=
  match con.query s ⟨statement, some values⟩ with
  | (.err e, s1) => ⟨.rejected (.driver e), s1, [⟨statement, some values⟩]⟩
  | (.ok result, s1) => ⟨.resolved result, s1, [⟨statement, some values⟩]⟩

/-- The operation
`readFromDatabase(con, tableName, dataSet, constraintParameter, constraintValue)`. -/
def readFromDatabase {σ : Type} (escapeId : JsVal → String) (con : Connection σ) (s : σ)
    (tableName dataSet constraintParameter constraintValue : JsVal) : Run σ DriverResult :=
  if isArray constraintParameter then
    if !isArray constraintValue
        || (elements constraintParameter).length != (elements constraintValue).length then
      -- line 128: the arguments of the logger call read `constraintValue.length`
      if readsProperty constraintValue then
        ⟨.threw (.error "Constraint parameters and values must be the same length"), s, []⟩
      else
        ⟨.threw .typeError, s, []⟩
    else
      runSelect con s
        (selectStatement escapeId tableName dataSet
          (join " AND " ((elements constraintParameter).map fun para => escapeId para ++ " = ?")))
        (elements constraintValue)
  else
    runSelect con s
      (selectStatement escapeId tableName dataSet (escapeId constraintParameter ++ " = ?"))
      [constraintValue]

/-! ## The identifier quoting of the driver library -/

/-- Replace every occurrence of the character `c` in `s` by the text `r`. -/
def replaceChar (c : Char) (r : String) (s : String) : String :=
  String.join (s.toList.map fun ch => if ch = c then r else String.singleton ch)

/-- The conversion `String(v)` on a value that is not an array. -/
def jsString : JsVal → String
  | .undefined => "undefined"
  | .null => "null"
  | .bool true => "true"
  | .bool false => "false"
  | .num n => toString n
  | .str s => s
  | .arr _ => ""

mutual
/-- Modelled from the spec: `mysql.escapeId` of the mysql2 driver, whose code is
not part of the repository. It escapes a name as an SQL identifier: the name is
put between backquotes, a backquote inside it is doubled and a dot splits a
qualified name; the elements of an array are escaped one by one and joined by
a comma and a blank. -/
def mysqlEscapeId : JsVal → String
  | .arr xs => mysqlEscapeIdList xs
  | v => "`" ++ replaceChar '.' "`.`" (replaceChar (Char.ofNat 96) "``" (jsString v)) ++ "`"
/-- The array branch of `mysqlEscapeId`. -/
def mysqlEscapeIdList : List JsVal → String
  | [] => ""
  | [x] => mysqlEscapeId x
  | x :: y :: rest => mysqlEscapeId x ++ ", " ++ mysqlEscapeIdList (y :: rest)
end

/-! ## Servers used to run the operations on concrete calls -/

/-- A server that answers every query with an empty result set. -/
def emptyServer : Connection Unit :=
  ⟨fun s _ => (.ok (.rows []), s)⟩

/-- A server that answers every query with the error `e`. -/
def failingServer (e : DriverError) : Connection Unit :=
  ⟨fun s _ => (.err e, s)⟩

/-- A server that owns at most one table; its state tells whether the table
exists. A query with bound values is the existence query and is answered with
one row when the table exists, with none otherwise; a query without bound
values is the creation statement and makes the table exist. -/
def oneTableServer : Connection Bool :=
  ⟨fun s q =>
    match q.values with
    | some _ => (.ok (.rows (if s then [[("TABLE_NAME", .str "users")]] else [])), s)
    | none => (.ok (.header 0 0), true)⟩

/-- Two constraint values have the same shape: both are arrays of the same
length, or neither is an array. -/
def sameShape (v w : JsVal) : Prop :=
  (isArray v = true ∧ isArray w = true ∧ (elements v).length = (elements w).length)
    ∨ (isArray v = false ∧ isArray w = false)

/-- The number of characters `?` in a statement text. -/
def placeholderCount (sql : String) : Nat :=
  sql.toList.count '?'

/-! ## Supporting lemmas -/

theorem join_replicate_count (n : Nat) :
    (join ", " (List.replicate n "?")).toList.count '?' = n := by
  induction n using Nat.strong_induction_on with
  | _ n ih =>
    match n with
    | 0 => decide
    | 1 => decide
    | k + 2 =>
      have h := ih (k + 1) (by omega)
      simp only [List.replicate_succ, join] at h ⊢
      simp only [String.toList, String.data_append, List.count_append] at h ⊢
      rw [h]
      have h1 : List.count '?' ['?'] = 1 := by decide
      have h2 : List.count '?' [',', ' '] = 0 := by decide
      omega

theorem map_const_placeholder (xs : List JsVal) :
    (xs.map fun _ => "?") = List.replicate xs.length "?" := by
  induction xs with
  | nil => rfl
  | cons x xs ih => simp [List.replicate_succ, ih]

theorem runSelect_issued {σ : Type} (con : Connection σ) (s : σ) (statement : String)
    (values : List JsVal) :
    (runSelect con s statement values).issued = [⟨statement, some values⟩] := by
  unfold runSelect
  split <;> rfl

theorem runSelect_not_threw {σ : Type} (con : Connection σ) (s : σ) (statement : String)
    (values : List JsVal) (e : JsError) :
    (runSelect con s statement values).outcome ≠ .threw e := by
  unfold runSelect
  split <;> simp

/-- When escaping leaves no `?` in any key, the `?` characters of the joined
conditions are exactly the placeholders, one per key. -/
theorem conditions_placeholder_count (escapeId : JsVal → String) (ks : List JsVal)
    (h : ∀ k ∈ ks, (escapeId k).toList.count '?' = 0) :
    (join " AND " (ks.map fun k => escapeId k ++ " = ?")).toList.count '?' = ks.length := by
  have hp : List.count '?' [' ', '=', ' ', '?'] = 1 := by decide
  have ha : List.count '?' [' ', 'A', 'N', 'D', ' '] = 0 := by decide
  induction ks with
  | nil => rfl
  | cons k rest ih =>
    have hk : List.count '?' (escapeId k).data = 0 := h k (List.mem_cons_self _ _)
    have hrest := ih fun j hj => h j (List.mem_cons_of_mem _ hj)
    cases rest with
    | nil =>
      simp only [List.map, join, String.toList, String.data_append, List.count_append,
        List.length_singleton]
      omega
    | cons j more =>
      simp only [List.map, join, String.toList, String.data_append, List.count_append,
        List.length_cons] at hrest ⊢
      omega

theorem runSelect_state {σ : Type} (con : Connection σ) (s : σ) (statement : String)
    (values : List JsVal) :
    (runSelect con s statement values).state = (con.query s ⟨statement, some values⟩).2 := by
  unfold runSelect
  split <;> (rename_i h; rw [h])

theorem runSelect_outcome_ok {σ : Type} (con : Connection σ) (s : σ) (statement : String)
    (values : List JsVal) (result : DriverResult)
    (h : (con.query s ⟨statement, some values⟩).1 = .ok result) :
    (runSelect con s statement values).outcome = .resolved result := by
  unfold runSelect
  split
  · rename_i h1
    rw [h1] at h
    cases h
  · rename_i h1
    rw [h1] at h
    cases h
    rfl

theorem runSelect_outcome_err {σ : Type} (con : Connection σ) (s : σ) (statement : String)
    (values : List JsVal) (e : DriverError)
    (h : (con.query s ⟨statement, some values⟩).1 = .err e) :
    (runSelect con s statement values).outcome = .rejected (.driver e) := by
  unfold runSelect
  split
  · rename_i h1
    rw [h1] at h
    cases h
    rfl
  · rename_i h1
    rw [h1] at h
    cases h

theorem select_text_placeholder_count (c t w : String) :
    placeholderCount ("SELECT " ++ c ++ " From " ++ t ++ " where " ++ w ++ ";")
      = placeholderCount c + placeholderCount t + placeholderCount w := by
  have h1 : List.count '?' ['S', 'E', 'L', 'E', 'C', 'T', ' '] = 0 := by decide
  have h2 : List.count '?' [' ', 'F', 'r', 'o', 'm', ' '] = 0 := by decide
  have h3 : List.count '?' [' ', 'w', 'h', 'e', 'r', 'e', ' '] = 0 := by decide
  have h4 : List.count '?' [';'] = 0 := by decide
  simp only [placeholderCount, String.toList, String.data_append, List.count_append]
  omega

theorem condition_placeholder_count (k : String) :
    placeholderCount (k ++ " = ?") = placeholderCount k + 1 := by
  have h1 : List.count '?' [' ', '=', ' ', '?'] = 1 := by decide
  simp only [placeholderCount, String.toList, String.data_append, List.count_append]
  omega

/-! ## The insertion -/

/-- C1: when `dataSet` (the column names) and `userData` (the values) differ in
length, `insertDataIntoDatabase` returns a promise rejected with the error
"Columns count doesn't match values count", issues no query on the connection
and leaves the server as it was. -/
theorem insert_length_mismatch {σ : Type} (escapeId : JsVal → String) (con : Connection σ)
    (s : σ) (tableName : JsVal) (dataSet userData : List JsVal)
    (h : dataSet.length ≠ userData.length) :
    insertDataIntoDatabase escapeId con s tableName dataSet userData
      = ⟨.rejected (.error "Columns count doesn't match values count"), s, []⟩ := by
  simp [insertDataIntoDatabase, h]

theorem insert_length_mismatch_witness :
    insertDataIntoDatabase mysqlEscapeId emptyServer () (.str "users")
        [.str "username", .str "password"] [.str "testUsr", .str "testPass", .str "hello"]
      = ⟨.rejected (.error "Columns count doesn't match values count"), (), []⟩ :=
  insert_length_mismatch mysqlEscapeId emptyServer () (.str "users")
    [.str "username", .str "password"] [.str "testUsr", .str "testPass", .str "hello"]
    (by decide)

/-- C2: when the lengths agree and the driver answers the INSERT with an error
`e`, the promise is fulfilled with the status DUPLICATE (and no result) if
`e.errno` is 1062 and rejected with `e` itself otherwise; so the call is
fulfilled exactly when the error is the duplicate-key error. -/
theorem insert_driver_error {σ : Type} (escapeId : JsVal → String) (con : Connection σ)
    (s s1 : σ) (tableName : JsVal) (dataSet userData : List JsVal) (e : DriverError)
    (hlen : dataSet.length = userData.length)
    (herr : con.query s ⟨insertStatement escapeId tableName dataSet userData, some userData⟩
      = (.err e, s1)) :
    (e.errno = 1062 →
        (insertDataIntoDatabase escapeId con s tableName dataSet userData).outcome
          = .resolved ⟨"DUPLICATE", none⟩)
      ∧ (e.errno ≠ 1062 →
        (insertDataIntoDatabase escapeId con s tableName dataSet userData).outcome
          = .rejected (.driver e))
      ∧ ((∃ r, (insertDataIntoDatabase escapeId con s tableName dataSet userData).outcome
          = .resolved r) ↔ e.errno = 1062) := by
  by_cases h : e.errno = 1062
  · simp [insertDataIntoDatabase, hlen, herr, h]
  · simp [insertDataIntoDatabase, hlen, herr, h]

theorem insert_driver_error_witness :
    (insertDataIntoDatabase mysqlEscapeId (failingServer ⟨1062, "Duplicate entry"⟩) ()
        (.str "users") [.str "username", .str "password"]
        [.str "testUsr", .str "testPass"]).outcome = .resolved ⟨"DUPLICATE", none⟩ :=
  (insert_driver_error mysqlEscapeId (failingServer ⟨1062, "Duplicate entry"⟩) () ()
    (.str "users") [.str "username", .str "password"] [.str "testUsr", .str "testPass"]
    ⟨1062, "Duplicate entry"⟩ rfl rfl).1 rfl

/-- C6: when `dataSet` and `userData` have the same length n,
`insertDataIntoDatabase` issues exactly one query. Its text is INSERT INTO,
the escaped table name, the escaped column names in the given order separated
by a comma and a blank between brackets, and VALUES with n placeholders `?`
separated the same way between brackets (the source writes `VALUES(` with no
blank before the bracket); its bound values are exactly `userData`. The query
is really put to the connection: the server is left in the state in which
that query leaves it, and the promise is settled from the reply to it, with
the status SUCCESS and the result of the driver when the reply is a result,
with the status DUPLICATE or a rejection when it is an error. -/
theorem insert_issues_one_query {σ : Type} (escapeId : JsVal → String) (con : Connection σ)
    (s : σ) (tableName : JsVal) (dataSet userData : List JsVal)
    (hlen : dataSet.length = userData.length) :
    (insertDataIntoDatabase escapeId con s tableName dataSet userData).issued
        = [⟨"INSERT INTO " ++ escapeId tableName ++ " (" ++ join ", " (dataSet.map escapeId)
              ++ ") VALUES(" ++ join ", " (List.replicate dataSet.length "?") ++ ")",
            some userData⟩]
      ∧ (join ", " (List.replicate dataSet.length "?")).toList.count '?' = dataSet.length
      ∧ (insertDataIntoDatabase escapeId con s tableName dataSet userData).state
        = (con.query s
            ⟨"INSERT INTO " ++ escapeId tableName ++ " (" ++ join ", " (dataSet.map escapeId)
              ++ ") VALUES(" ++ join ", " (List.replicate dataSet.length "?") ++ ")",
            some userData⟩).2
      ∧ (∀ result,
          (con.query s
            ⟨"INSERT INTO " ++ escapeId tableName ++ " (" ++ join ", " (dataSet.map escapeId)
              ++ ") VALUES(" ++ join ", " (List.replicate dataSet.length "?") ++ ")",
            some userData⟩).1 = .ok result →
          (insertDataIntoDatabase escapeId con s tableName dataSet userData).outcome
            = .resolved ⟨"SUCCESS", some result⟩)
      ∧ (∀ e,
          (con.query s
            ⟨"INSERT INTO " ++ escapeId tableName ++ " (" ++ join ", " (dataSet.map escapeId)
              ++ ") VALUES(" ++ join ", " (List.replicate dataSet.length "?") ++ ")",
            some userData⟩).1 = .err e →
          (insertDataIntoDatabase escapeId con s tableName dataSet userData).outcome
            = if e.errno = 1062 then .resolved ⟨"DUPLICATE", none⟩ else .rejected (.driver e)) := by
  have hq : insertStatement escapeId tableName dataSet userData
      = "INSERT INTO " ++ escapeId tableName ++ " (" ++ join ", " (dataSet.map escapeId)
          ++ ") VALUES(" ++ join ", " (List.replicate dataSet.length "?") ++ ")" := by
    simp only [insertStatement, map_const_placeholder, hlen]
  rw [← hq]
  refine ⟨?_, join_replicate_count _, ?_, ?_, ?_⟩
  · unfold insertDataIntoDatabase
    rw [if_neg (by simpa using hlen)]
    split
    · split <;> rfl
    · rfl
  · unfold insertDataIntoDatabase
    rw [if_neg (by simpa using hlen)]
    split
    · rename_i h
      rw [h]
      split <;> rfl
    · rename_i h
      rw [h]
  · intro result hr
    unfold insertDataIntoDatabase
    rw [if_neg (by simpa using hlen)]
    split
    · rename_i h
      rw [h] at hr
      cases hr
    · rename_i h
      rw [h] at hr
      cases hr
      rfl
  · intro e he
    unfold insertDataIntoDatabase
    rw [if_neg (by simpa using hlen)]
    split
    · rename_i h
      rw [h] at he
      cases he
      split <;> rfl
    · rename_i h
      rw [h] at he
      cases he

theorem insert_issues_one_query_witness :
    (insertDataIntoDatabase mysqlEscapeId emptyServer () (.str "users")
        [.str "username", .str "password"] [.str "testUsr", .str "testPass"]).issued
      = [⟨"INSERT INTO `users` (`username`, `password`) VALUES(?, ?)",
          some [.str "testUsr", .str "testPass"]⟩]
      ∧ (insertDataIntoDatabase mysqlEscapeId emptyServer () (.str "users")
        [.str "username", .str "password"] [.str "testUsr", .str "testPass"]).outcome
      = .resolved ⟨"SUCCESS", some (.rows [])⟩ :=
  have h := insert_issues_one_query mysqlEscapeId emptyServer () (.str "users")
    [.str "username", .str "password"] [.str "testUsr", .str "testPass"] rfl
  ⟨h.1, h.2.2.2.1 (.rows []) rfl⟩

/-! ## The selection -/

/-- C7, as the source has it: a call of `readFromDatabase` that passes the
validation issues exactly one query, SELECT with the column list, the escaped
table name and the conditions (the source spells the keywords `From` and
`where` and closes the statement with a semicolon). For an array of keys and
an array of values of the same length the conditions are one
`<escaped key> = ?` per key, in the given order, joined by ` AND ` only, and
the bound values are the given values in their order. For a key that is not
an array the only condition is `<escaped key> = ?` and the bound values are
the one value. The query is really put to the connection: the server is left
in the state in which that query leaves it, and the promise is fulfilled with
the result of the reply or rejected with its error. The text has as many `?`
as there are bound values when the escaped column list, table name and keys
contain no `?` themselves. -/
theorem read_issues_one_query {σ : Type} (escapeId : JsVal → String) (con : Connection σ)
    (s : σ) (tableName dataSet : JsVal) :
    (∀ (ks vs : List JsVal) (Q : Query), ks.length = vs.length →
        Q = ⟨"SELECT " ++ selectColumns escapeId dataSet ++ " From " ++ escapeId tableName
              ++ " where " ++ join " AND " (ks.map fun k => escapeId k ++ " = ?") ++ ";",
            some vs⟩ →
        (readFromDatabase escapeId con s tableName dataSet (.arr ks) (.arr vs)).issued = [Q]
          ∧ (readFromDatabase escapeId con s tableName dataSet (.arr ks) (.arr vs)).state
            = (con.query s Q).2
          ∧ (∀ result, (con.query s Q).1 = .ok result →
            (readFromDatabase escapeId con s tableName dataSet (.arr ks) (.arr vs)).outcome
              = .resolved result)
          ∧ (∀ e, (con.query s Q).1 = .err e →
            (readFromDatabase escapeId con s tableName dataSet (.arr ks) (.arr vs)).outcome
              = .rejected (.driver e))
          ∧ (placeholderCount (selectColumns escapeId dataSet) = 0 →
            placeholderCount (escapeId tableName) = 0 →
            (∀ k ∈ ks, placeholderCount (escapeId k) = 0) →
            placeholderCount Q.sql = vs.length))
      ∧ (∀ (k v : JsVal) (Q : Query), isArray k = false →
        Q = ⟨"SELECT " ++ selectColumns escapeId dataSet ++ " From " ++ escapeId tableName
              ++ " where " ++ (escapeId k ++ " = ?") ++ ";",
            some [v]⟩ →
        (readFromDatabase escapeId con s tableName dataSet k v).issued = [Q]
          ∧ (readFromDatabase escapeId con s tableName dataSet k v).state = (con.query s Q).2
          ∧ (∀ result, (con.query s Q).1 = .ok result →
            (readFromDatabase escapeId con s tableName dataSet k v).outcome = .resolved result)
          ∧ (∀ e, (con.query s Q).1 = .err e →
            (readFromDatabase escapeId con s tableName dataSet k v).outcome
              = .rejected (.driver e))
          ∧ (placeholderCount (selectColumns escapeId dataSet) = 0 →
            placeholderCount (escapeId tableName) = 0 →
            placeholderCount (escapeId k) = 0 →
            placeholderCount Q.sql = [v].length)) := by
  constructor
  · intro ks vs Q h hQ
    have hr : readFromDatabase escapeId con s tableName dataSet (.arr ks) (.arr vs)
        = runSelect con s
            ("SELECT " ++ selectColumns escapeId dataSet ++ " From " ++ escapeId tableName
              ++ " where " ++ join " AND " (ks.map fun k => escapeId k ++ " = ?") ++ ";") vs := by
      simp [readFromDatabase, isArray, elements, h, selectStatement]
    rw [hr, hQ]
    refine ⟨runSelect_issued _ _ _ _, runSelect_state _ _ _ _,
      fun r => runSelect_outcome_ok _ _ _ _ r, fun e => runSelect_outcome_err _ _ _ _ e, ?_⟩
    intro hc ht hk
    have hw := conditions_placeholder_count escapeId ks hk
    rw [select_text_placeholder_count, hc, ht]
    simp only [placeholderCount] at hw ⊢
    omega
  · intro k v Q h hQ
    have hr : readFromDatabase escapeId con s tableName dataSet k v
        = runSelect con s
            ("SELECT " ++ selectColumns escapeId dataSet ++ " From " ++ escapeId tableName
              ++ " where " ++ (escapeId k ++ " = ?") ++ ";") [v] := by
      simp [readFromDatabase, h, selectStatement]
    rw [hr, hQ]
    refine ⟨runSelect_issued _ _ _ _, runSelect_state _ _ _ _,
      fun r => runSelect_outcome_ok _ _ _ _ r, fun e => runSelect_outcome_err _ _ _ _ e, ?_⟩
    intro hc ht hk
    rw [select_text_placeholder_count, condition_placeholder_count, hc, ht, hk]
    rfl

theorem read_issues_one_query_witness :
    (readFromDatabase mysqlEscapeId emptyServer () (.str "users")
        (.arr [.str "username", .str "password"]) (.arr [.str "username", .str "password"])
        (.arr [.str "testUsr", .str "testPass"])).issued
      = [⟨"SELECT `username`, `password` From `users` where `username` = ? AND `password` = ?;",
          some [.str "testUsr", .str "testPass"]⟩]
      ∧ (readFromDatabase mysqlEscapeId emptyServer () (.str "users")
        (.arr [.str "username", .str "password"]) (.arr [.str "username", .str "password"])
        (.arr [.str "testUsr", .str "testPass"])).outcome = .resolved (.rows [])
      ∧ placeholderCount
          "SELECT `username`, `password` From `users` where `username` = ? AND `password` = ?;"
        = 2 :=
  have h := (read_issues_one_query mysqlEscapeId emptyServer () (.str "users")
    (.arr [.str "username", .str "password"])).1
      [.str "username", .str "password"] [.str "testUsr", .str "testPass"]
      ⟨"SELECT `username`, `password` From `users` where `username` = ? AND `password` = ?;",
        some [.str "testUsr", .str "testPass"]⟩ rfl rfl
  ⟨h.1, h.2.2.1 (.rows []) rfl,
    h.2.2.2.2 (by decide) (by decide) (by
      intro k hk
      simp only [List.mem_cons, List.mem_singleton, List.not_mem_nil, or_false] at hk
      rcases hk with rfl | rfl <;> decide)⟩

/-- C7, the claim refuted: with the one key `a?` and the one value `x` the
call passes the validation and issues one query whose text holds two `?`, the
one of the key inside the escaped identifier and the placeholder, for one
bound value. -/
theorem read_key_with_question_mark :
    (readFromDatabase mysqlEscapeId emptyServer () (.str "users") (.str "username")
        (.arr [.str "a?"]) (.arr [.str "x"])).issued
      = [⟨"SELECT `username` From `users` where `a?` = ?;", some [.str "x"]⟩]
      ∧ ((readFromDatabase mysqlEscapeId emptyServer () (.str "users") (.str "username")
        (.arr [.str "a?"]) (.arr [.str "x"])).issued.map
          fun q => (placeholderCount q.sql, (q.values.getD []).length)) = [(2, 1)] :=
  ⟨rfl, by decide⟩

theorem insert_issued_sql {σ : Type} (escapeId : JsVal → String) (con : Connection σ)
    (s : σ) (tableName : JsVal) (dataSet userData : List JsVal) :
    (insertDataIntoDatabase escapeId con s tableName dataSet userData).issued
      = if dataSet.length ≠ userData.length then []
        else [⟨insertStatement escapeId tableName dataSet userData, some userData⟩] := by
  unfold insertDataIntoDatabase
  split
  · rfl
  · split
    · split <;> rfl
    · rfl

theorem read_issued_sql {σ : Type} (escapeId : JsVal → String) (con : Connection σ)
    (s : σ) (tableName dataSet constraintParameter constraintValue : JsVal) :
    (readFromDatabase escapeId con s tableName dataSet constraintParameter constraintValue).issued
      = if isArray constraintParameter then
          if !isArray constraintValue
              || (elements constraintParameter).length != (elements constraintValue).length then []
          else
            [⟨selectStatement escapeId tableName dataSet
                (join " AND "
                  ((elements constraintParameter).map fun para => escapeId para ++ " = ?")),
              some (elements constraintValue)⟩]
        else
          [⟨selectStatement escapeId tableName dataSet (escapeId constraintParameter ++ " = ?"),
            some [constraintValue]⟩] := by
  unfold readFromDatabase
  split
  · split
    · split <;> rfl
    · exact runSelect_issued _ _ _ _
  · exact runSelect_issued _ _ _ _

/-- C8: the text of the statements does not depend on the value data. Two
insertions into the same table with the same column names and value lists of
the same length issue the same statement texts, and two selections with the
same table, columns and constraint keys and constraint values of the same
shape issue the same statement texts, whatever the values and the servers
are; every issued query carries the values as its bound values. -/
theorem statement_text_independent_of_values {σ τ : Type} (escapeId : JsVal → String)
    (con : Connection σ) (con' : Connection τ) (s : σ) (s' : τ)
    (tableName dataSet constraintParameter : JsVal) (columns userData userData' : List JsVal)
    (v v' : JsVal) (hlen : userData.length = userData'.length) (hshape : sameShape v v') :
    ((insertDataIntoDatabase escapeId con s tableName columns userData).issued.map Query.sql
        = (insertDataIntoDatabase escapeId con' s' tableName columns userData').issued.map
            Query.sql)
      ∧ ((readFromDatabase escapeId con s tableName dataSet constraintParameter v).issued.map
            Query.sql
          = (readFromDatabase escapeId con' s' tableName dataSet constraintParameter v').issued.map
              Query.sql)
      ∧ (∀ q ∈ (insertDataIntoDatabase escapeId con s tableName columns userData).issued,
          q.values = some userData)
      ∧ (∀ q ∈ (readFromDatabase escapeId con s tableName dataSet constraintParameter v).issued,
          q.values = some (if isArray constraintParameter then elements v else [v])) := by
  refine ⟨?_, ?_, ?_, ?_⟩
  · rw [insert_issued_sql, insert_issued_sql, ← hlen]
    have ht : insertStatement escapeId tableName columns userData
        = insertStatement escapeId tableName columns userData' := by
      simp only [insertStatement, map_const_placeholder, hlen]
    split <;> simp [ht]
  · rw [read_issued_sql, read_issued_sql]
    rcases hshape with ⟨h1, h2, h3⟩ | ⟨h1, h2⟩
    · simp only [h1, h2, h3]
      split
      · split <;> simp
      · simp
    · simp only [h1, h2]
      split <;> simp
  · intro q hq
    rw [insert_issued_sql] at hq
    split at hq
    · simp at hq
    · simp at hq
      rw [hq]
  · intro q hq
    rw [read_issued_sql] at hq
    split at hq
    · rename_i hp
      split at hq
      · simp at hq
      · simp at hq
        simp [hq, hp]
    · rename_i hp
      simp at hq
      simp [hq, hp]

theorem statement_text_independent_of_values_witness :
    ((insertDataIntoDatabase mysqlEscapeId emptyServer () (.str "users")
          [.str "username", .str "password"] [.str "alice", .str "pw1"]).issued.map Query.sql
        = (insertDataIntoDatabase mysqlEscapeId (failingServer ⟨1062, "Duplicate entry"⟩) ()
            (.str "users") [.str "username", .str "password"]
            [.str "bob", .num 7]).issued.map Query.sql)
      ∧ ((readFromDatabase mysqlEscapeId emptyServer () (.str "users") (.str "password")
            (.str "username") (.str "alice")).issued.map Query.sql
        = (readFromDatabase mysqlEscapeId (failingServer ⟨1062, "Duplicate entry"⟩) ()
            (.str "users") (.str "password") (.str "username") (.num 7)).issued.map Query.sql) :=
  have h := statement_text_independent_of_values mysqlEscapeId emptyServer
    (failingServer ⟨1062, "Duplicate entry"⟩) () () (.str "users") (.str "password")
    (.str "username") [.str "username", .str "password"] [.str "alice", .str "pw1"]
    [.str "bob", .num 7] (.str "alice") (.num 7) rfl (Or.inr ⟨rfl, rfl⟩)
  ⟨h.1, h.2.1⟩

/-- C4, as the source has it: the validation is carried out only when the
constraint keys are an array. Then values that are not an array (`undefined`
and `null` left aside) or are an array of another length make the call fail
with the error "Constraint parameters and values must be the same length"
before any query is issued. When the keys are not an array nothing is
validated: whatever the value is, an array included, the call is the one query
with the single condition on the key and the value as its only bound value,
and it raises no exception. -/
theorem read_validation {σ : Type} (escapeId : JsVal → String) (con : Connection σ)
    (s : σ) (tableName dataSet : JsVal) :
    (∀ (ks : List JsVal) (v : JsVal), readsProperty v = true →
        (isArray v = false ∨ (elements v).length ≠ ks.length) →
        readFromDatabase escapeId con s tableName dataSet (.arr ks) v
          = ⟨.threw (.error "Constraint parameters and values must be the same length"), s, []⟩)
      ∧ (∀ k v : JsVal, isArray k = false →
        readFromDatabase escapeId con s tableName dataSet k v
            = runSelect con s
                (selectStatement escapeId tableName dataSet (escapeId k ++ " = ?")) [v]
          ∧ (readFromDatabase escapeId con s tableName dataSet k v).issued.length = 1
          ∧ ∀ e, (readFromDatabase escapeId con s tableName dataSet k v).outcome ≠ .threw e) := by
  constructor
  · intro ks v hv h
    have hc : (!isArray v || (elements (JsVal.arr ks)).length != (elements v).length) = true := by
      rcases h with h | h
      · rw [h]
        rfl
      · have h2 : ((elements (JsVal.arr ks)).length != (elements v).length) = true := by
          rw [bne_iff_ne]
          exact fun h3 => h h3.symm
        rw [h2, Bool.or_true]
    unfold readFromDatabase
    rw [show isArray (JsVal.arr ks) = true from rfl, if_pos rfl, if_pos hc, if_pos hv]
  · intro k v h
    have hr : readFromDatabase escapeId con s tableName dataSet k v
        = runSelect con s
            (selectStatement escapeId tableName dataSet (escapeId k ++ " = ?")) [v] := by
      simp [readFromDatabase, h]
    refine ⟨hr, ?_, ?_⟩
    · rw [hr, runSelect_issued]
      rfl
    · intro e
      rw [hr]
      exact runSelect_not_threw _ _ _ _ e

theorem read_validation_witness :
    readFromDatabase mysqlEscapeId emptyServer () (.str "users") (.str "username")
        (.arr [.str "username", .str "password"]) (.str "testUsr")
      = ⟨.threw (.error "Constraint parameters and values must be the same length"), (), []⟩ :=
  (read_validation mysqlEscapeId emptyServer () (.str "users") (.str "username")).1
    [.str "username", .str "password"] (.str "testUsr") rfl (Or.inl rfl)

/-- C4, the claim refuted: with the single key `username` and the array of
values `["a", "b"]` the call does not fail. It issues one query, whose only
bound value is the array, and the promise is fulfilled with the rows of the
server. -/
theorem read_scalar_key_array_values :
    (readFromDatabase mysqlEscapeId emptyServer () (.str "users") (.str "username")
          (.str "username") (.arr [.str "a", .str "b"])).outcome = .resolved (.rows [])
      ∧ (readFromDatabase mysqlEscapeId emptyServer () (.str "users") (.str "username")
          (.str "username") (.arr [.str "a", .str "b"])).issued
        = [⟨"SELECT `username` From `users` where `username` = ?;",
            some [.arr [.str "a", .str "b"]]⟩] :=
  ⟨rfl, rfl⟩

/-- C3, at the call `readFromDatabase(con, "users", "username", ["username"], null)`:
the keys are an array and the value is not, but the call does not fail with
the error "Constraint parameters and values must be the same length". Reading
`constraintValue.length` for the logger call of line 128 raises a TypeError
first. No query is issued. -/
theorem read_null_values_type_error :
    readFromDatabase mysqlEscapeId emptyServer () (.str "users") (.str "username")
        (.arr [.str "username"]) .null
      = ⟨.threw .typeError, (), []⟩ :=
  rfl

/-- C5, at the call `readFromDatabase(con, "users", "*", "username", "testUsr")`
of the SELECT TESTS comment: the wildcard is escaped like any other name, so
the column list of the issued statement is the quoted identifier and not the
bare `*`. -/
theorem read_wildcard_is_escaped :
    (readFromDatabase mysqlEscapeId emptyServer () (.str "users") (.str "*")
          (.str "username") (.str "testUsr")).issued
        = [⟨"SELECT `*` From `users` where `username` = ?;", some [.str "testUsr"]⟩]
      ∧ selectColumns mysqlEscapeId (.str "*") = "`*`"
      ∧ selectColumns mysqlEscapeId (.str "*") ≠ "*" :=
  ⟨rfl, rfl, by decide⟩

/-- C10, at the call
`readFromDatabase(con, "users", "*", ["username"], ["testUsr", "testPass"])`:
the validation error of the selection is raised synchronously, no promise is
returned; the insertion with a length mismatch returns a rejected promise. -/
theorem read_mismatch_throws_synchronously :
    (readFromDatabase mysqlEscapeId emptyServer () (.str "users") (.str "*")
          (.arr [.str "username"]) (.arr [.str "testUsr", .str "testPass"])).outcome
        = .threw (.error "Constraint parameters and values must be the same length")
      ∧ (insertDataIntoDatabase mysqlEscapeId emptyServer () (.str "users")
          [.str "username"] [.str "testUsr", .str "testPass"]).outcome
        = .rejected (.error "Columns count doesn't match values count") :=
  ⟨rfl, rfl⟩

/-! ## The creation of a table -/

/-- C9: over a server whose existence query is answered truthfully (rows
exactly when the table is present, presence unchanged by the query) and on
which a successful CREATE TABLE makes the table present: when the table is
present `checkTableAndCreate` succeeds with the existence query alone; when it
is absent it issues the existence query and then exactly one
`CREATE TABLE <escaped table> (<tableDetails>)`; and when that first call
succeeded, a second call succeeds with the existence query alone, so that the
two calls issue one creation in total. -/
theorem checkTableAndCreate_twice {σ : Type} (escapeId : JsVal → String) (con : Connection σ)
    (present : σ → Bool) (databaseName tableName : JsVal) (tableDetails : String)
    (hcheck : ∀ s, ∃ rs s1,
      con.query s (tableCheckQuery databaseName tableName) = (.ok (.rows rs), s1)
        ∧ (0 < rs.length ↔ present s = true) ∧ present s1 = present s)
    (hcreate : ∀ s r s1,
      con.query s (tableCreateQuery escapeId tableName tableDetails) = (.ok r, s1) →
        present s1 = true)
    (s : σ) :
    (present s = true →
        (checkTableAndCreate escapeId con s databaseName tableName tableDetails).outcome
            = .resolved ()
          ∧ (checkTableAndCreate escapeId con s databaseName tableName tableDetails).issued
            = [tableCheckQuery databaseName tableName])
      ∧ (present s = false →
        (checkTableAndCreate escapeId con s databaseName tableName tableDetails).issued
            = [tableCheckQuery databaseName tableName,
                ⟨"CREATE TABLE " ++ escapeId tableName ++ " (" ++ tableDetails ++ ")", none⟩]
          ∧ ((checkTableAndCreate escapeId con s databaseName tableName tableDetails).outcome
              = .resolved () →
            (checkTableAndCreate escapeId con
                (checkTableAndCreate escapeId con s databaseName tableName tableDetails).state
                databaseName tableName tableDetails).outcome = .resolved ()
              ∧ (checkTableAndCreate escapeId con
                (checkTableAndCreate escapeId con s databaseName tableName tableDetails).state
                databaseName tableName tableDetails).issued
                = [tableCheckQuery databaseName tableName]))
      ∧ tableCheckQuery databaseName tableName
          ≠ ⟨"CREATE TABLE " ++ escapeId tableName ++ " (" ++ tableDetails ++ ")", none⟩ := by
  have hpresent : ∀ t, present t = true →
      (checkTableAndCreate escapeId con t databaseName tableName tableDetails).outcome
          = .resolved ()
        ∧ (checkTableAndCreate escapeId con t databaseName tableName tableDetails).issued
          = [tableCheckQuery databaseName tableName] := by
    intro t ht
    obtain ⟨rs, t1, hq, hiff, _⟩ := hcheck t
    have hpos : 0 < rs.length := hiff.mpr ht
    simp [checkTableAndCreate, hq, lengthPositive, hpos]
  refine ⟨hpresent s, ?_, ?_⟩
  · intro hs
    obtain ⟨rs, s1, hq, hiff, hkeep⟩ := hcheck s
    have hnot : ¬ 0 < rs.length := by
      intro h
      have := hiff.mp h
      simp [hs] at this
    have hlen : lengthPositive (.rows rs) = false := by
      simp only [lengthPositive]
      exact decide_eq_false hnot
    cases hc : con.query s1 (tableCreateQuery escapeId tableName tableDetails) with
    | mk reply s2 =>
      cases reply with
      | err e =>
        have hrun : checkTableAndCreate escapeId con s databaseName tableName tableDetails
            = ⟨.rejected (.driver e), s2, [tableCheckQuery databaseName tableName,
                tableCreateQuery escapeId tableName tableDetails]⟩ := by
          simp [checkTableAndCreate, hq, hlen, hc]
        rw [hrun]
        exact ⟨rfl, fun h => by cases h⟩
      | ok r =>
        have hs2 : present s2 = true := hcreate s1 r s2 hc
        have hrun : checkTableAndCreate escapeId con s databaseName tableName tableDetails
            = ⟨.resolved (), s2, [tableCheckQuery databaseName tableName,
                tableCreateQuery escapeId tableName tableDetails]⟩ := by
          simp [checkTableAndCreate, hq, hlen, hc]
        rw [hrun]
        exact ⟨rfl, fun _ => hpresent s2 hs2⟩
  · intro h
    have := congrArg Query.values h
    simp [tableCheckQuery] at this

theorem checkTableAndCreate_twice_witness :
    (checkTableAndCreate mysqlEscapeId oneTableServer false (.str "skilltracker") (.str "users")
          "username VARCHAR(255) UNIQUE, password VARCHAR(255)").issued
        = [tableCheckQuery (.str "skilltracker") (.str "users"),
            ⟨"CREATE TABLE `users` (username VARCHAR(255) UNIQUE, password VARCHAR(255))", none⟩]
      ∧ (checkTableAndCreate mysqlEscapeId oneTableServer
          (checkTableAndCreate mysqlEscapeId oneTableServer false (.str "skilltracker")
            (.str "users") "username VARCHAR(255) UNIQUE, password VARCHAR(255)").state
          (.str "skilltracker") (.str "users")
          "username VARCHAR(255) UNIQUE, password VARCHAR(255)").outcome = .resolved ()
      ∧ (checkTableAndCreate mysqlEscapeId oneTableServer
          (checkTableAndCreate mysqlEscapeId oneTableServer false (.str "skilltracker")
            (.str "users") "username VARCHAR(255) UNIQUE, password VARCHAR(255)").state
          (.str "skilltracker") (.str "users")
          "username VARCHAR(255) UNIQUE, password VARCHAR(255)").issued
        = [tableCheckQuery (.str "skilltracker") (.str "users")] :=
  have h := (checkTableAndCreate_twice mysqlEscapeId oneTableServer (fun b => b)
    (.str "skilltracker") (.str "users") "username VARCHAR(255) UNIQUE, password VARCHAR(255)"
    (fun b => by cases b <;> exact ⟨_, _, rfl, by decide, rfl⟩)
    (fun b r b1 h => by
      have h2 := congrArg Prod.snd h
      exact h2.symm)
    false).2.1 rfl
  ⟨h.1, h.2 rfl⟩

end SkillTracker
